import Mathlib

/-!
Verification development for the gocb connection-management and option-encoding
core: a shallow embedding of the Go sources (searchquery_options.go,
analyticsquery_options.go, error_wrapping.go, error_search.go and the cluster
code) into Lean 4, together with theorems settling the specification claims.

Go maps with string keys are embedded as association lists with a
replace-or-append update (`assocSet`) and first-match lookup (`assocGet`);
heterogeneous `interface\x7b\x7d` values become the inductive `JVal`; fallible Go
functions returning `(T, error)` become `Except GocbError T`.  The registry
code's side effects (closing clients) are made explicit as an invocation
trace.  Definitions that embed repository code missing from the provided
sources are marked `Modelled from the spec:` in their doc comments.
-/

namespace Gocb

/-- Lookup in an association list (first match wins), embedding Go map reads. -/
def assocGet {α : Type} (m : List (String × α)) (k : String) : Option α :=
  match m with
  | [] => none
  | (k1, v1) :: t => if k1 = k then some v1 else assocGet t k

/-- Update of an association list (replace the first binding of the key if
present, else append), embedding Go map assignment `m[k] = v`. -/
def assocSet {α : Type} (m : List (String × α)) (k : String) (v : α) : List (String × α) :=
  match m with
  | [] => [(k, v)]
  | (k1, v1) :: t => if k1 = k then (k, v) :: t else (k1, v1) :: assocSet t k v

/-- Character-list version of the test that `s` begins with the pattern. -/
def charsBegin : List Char → List Char → Bool
  | [], _ => true
  | _ :: _, [] => false
  | c :: cs, d :: ds => c = d && charsBegin cs ds

/-- Embedding of Go `strings.HasPrefix s pat`. -/
def strBegins (s pat : String) : Bool := charsBegin pat.data s.data

/-- Errors produced by this layer: `invalidArguments` embeds
`makeInvalidArgumentsError` (modelled from the spec taxonomy, the constructor
itself is outside the provided sources), `strError` embeds `errors.New`. -/
inductive GocbError where
  | invalidArguments (msg : String)
  | strError (msg : String)
deriving DecidableEq, Repr

/-- Heterogeneous values stored in wire-parameter maps, embedding Go
`interface\x7b\x7d` values actually used by the encoders.  `vUuid` stands for the
freshly generated `uuid.New()` client context id, `vDur d` for the
`time.Duration.String()` rendering of `d`, `vSortList`/`vFacet` carry the
caller's sort and facet values as opaque tokens. -/
inductive JVal where
  | vInt (n : Int)
  | vStr (s : String)
  | vBool (b : Bool)
  | vStrList (l : List String)
  | vSortList (l : List String)
  | vFacet (tok : String)
  | vDur (d : Int)
  | vUuid
  | vObj (m : List (String × JVal))
  | vList (l : List JVal)

/-- Wire-parameter map: Go `map[string]interface\x7b\x7d`. -/
def GoMap := List (String × JVal)

/-- Modelled from the spec: a single mutation token of a `MutationState`
(the `MutationState` type and `toSearchMutationState` are not in the provided
sources; the spec says only that the token case embeds a vector-clock payload
derived from the mutation state). -/
structure MutationToken where
  bucketName : String
  vbID : Nat
  vbUUID : Nat
  seqNo : Nat

/-- Modelled from the spec: the mutation-state token set used for
at-plus search consistency. -/
structure MutationState where
  tokens : List MutationToken

/-- Modelled from the spec: the vector-clock payload derived from a mutation
state, one entry per token keyed by bucket name. -/
def MutationState.toSearchMutationState (ms : MutationState) : JVal :=
  JVal.vObj (ms.tokens.map (fun t =>
    (t.bucketName, JVal.vObj [(toString t.vbID ++ "/" ++ toString t.vbUUID, JVal.vInt t.seqNo)])))

/-- Embeds `SearchHighlightOptions` (searchquery_options.go). -/
structure SearchHighlightOptions where
  style : String
  fields : List String

/-- Embeds `SearchOptions` (searchquery_options.go).  `scanConsistency` is the
Go `SearchScanConsistency` integer (0 = not set, 1 = `NotBounded`); pointer and
map fields that the source compares against `nil` become `Option`. -/
structure SearchOptions where
  scanConsistency : Int
  limit : Int
  skip : Int
  explain : Bool
  highlight : Option SearchHighlightOptions
  fields : List String
  sort : List String
  facets : Option (List (String × String))
  consistentWith : Option MutationState
  raw : Option (List (String × JVal))

/-- Embeds `SearchOptions.toMap` (searchquery_options.go lines 58-122).
Note that the source builds a local `ctl` map in lines 86-113 but never stores
it into `data`; `SearchOptions.droppedCtl` below reproduces that dead local
computation. -/
def SearchOptions.toMap (opts : SearchOptions) : Except GocbError GoMap :=
  let data : GoMap := []
  let data := assocSet data "size" (JVal.vInt opts.limit)
  let data := assocSet data "from" (JVal.vInt opts.skip)
  let data := assocSet data "explain" (JVal.vBool opts.explain)
  let data := assocSet data "fields" (JVal.vStrList opts.fields)
  let data := assocSet data "sort" (JVal.vSortList opts.sort)
  let data :=
    match opts.highlight with
    | some hl =>
        assocSet data "highlight"
          (JVal.vObj (assocSet (assocSet [] "style" (JVal.vStr hl.style)) "fields"
            (JVal.vStrList hl.fields)))
    | none => data
  let data :=
    match opts.facets with
    | some fs =>
        assocSet data "facets"
          (JVal.vObj (fs.foldl (fun m p => assocSet m p.1 (JVal.vFacet p.2)) []))
    | none => data
  if opts.scanConsistency ≠ 0 ∧ opts.consistentWith.isSome then
    Except.error (GocbError.invalidArguments
      "ScanConsistency and ConsistentWith must be used exclusively")
  else if opts.scanConsistency ≠ 0 ∧ opts.scanConsistency ≠ 1 then
    Except.error (GocbError.invalidArguments "unexpected consistency option")
  else
    let data :=
      match opts.raw with
      | some r => r.foldl (fun m p => assocSet m p.1 p.2) data
      | none => data
    Except.ok data

/-- Embeds the local `ctl` map that `SearchOptions.toMap` builds in
searchquery_options.go lines 86-113 and then drops without ever writing it
into `data` (the consistency branches' error cases are handled in `toMap`
itself; this definition covers the non-error paths). -/
def SearchOptions.droppedCtl (opts : SearchOptions) : Option GoMap :=
  let ctl : Option GoMap := none
  let ctl :=
    if opts.scanConsistency ≠ 0 then
      some (assocSet (ctl.getD []) "consistency"
        (JVal.vObj (assocSet [] "level" (JVal.vStr "not_bounded"))))
    else ctl
  match opts.consistentWith with
  | some ms =>
      some (assocSet (ctl.getD []) "consistency"
        (JVal.vObj (assocSet (assocSet [] "level" (JVal.vStr "at_plus")) "vectors"
          ms.toSearchMutationState)))
  | none => ctl

/-- Embeds `AnalyticsOptions` (analyticsquery_options.go); slice and map
fields compared against `nil` in the source become `Option`. -/
structure AnalyticsOptions where
  serverSideTimeout : Int
  clientContextID : String
  raw : Option (List (String × JVal))
  priority : Bool
  positionalParameters : Option (List JVal)
  namedParameters : Option (List (String × JVal))
  readOnly : Bool

/-- Key transformation applied to named parameters in
`AnalyticsOptions.toMap`: add a leading dollar sign unless one is present
(the source inlines this as `strings.HasPrefix(key, "$")`). -/
def dollarKey (k : String) : String := if strBegins k "$" then k else "$" ++ k

/-- Embeds `AnalyticsOptions.toMap` (analyticsquery_options.go lines 30-76). -/
def AnalyticsOptions.toMap (opts : AnalyticsOptions) (statement : String) :
    Except GocbError GoMap :=
  let execOpts : GoMap := assocSet [] "statement" (JVal.vStr statement)
  let execOpts :=
    if opts.serverSideTimeout ≠ 0 then
      assocSet execOpts "timeout" (JVal.vDur opts.serverSideTimeout)
    else execOpts
  let execOpts :=
    if opts.clientContextID = "" then assocSet execOpts "client_context_id" JVal.vUuid
    else assocSet execOpts "client_context_id" (JVal.vStr opts.clientContextID)
  let execOpts :=
    if opts.priority then assocSet execOpts "priority" (JVal.vInt (-1)) else execOpts
  if opts.positionalParameters.isSome ∧ opts.namedParameters.isSome then
    Except.error (GocbError.strError "Positional and named parameters must be used exclusively")
  else
    let execOpts :=
      match opts.positionalParameters with
      | some args => assocSet execOpts "args" (JVal.vList args)
      | none => execOpts
    let execOpts :=
      match opts.namedParameters with
      | some nps => nps.foldl (fun m p => assocSet m (dollarKey p.1) p.2) execOpts
      | none => execOpts
    let execOpts :=
      match opts.raw with
      | some r => r.foldl (fun m p => assocSet m p.1 p.2) execOpts
      | none => execOpts
    let execOpts :=
      if opts.readOnly then assocSet execOpts "readonly" (JVal.vBool true) else execOpts
    Except.ok execOpts

/-- Discriminator for the invalid-arguments error kind. -/
def GocbError.isInvalidArgs : GocbError → Bool
  | .invalidArguments _ => true
  | .strError _ => false

/-- Opaque Go `error` value with no recognized transport shape (identity is
all that matters for the pass-through case of the enhancer). -/
structure ErrValue where
  tag : String
deriving DecidableEq, Repr

/-- Domain retry reason (a string-identified reason). -/
structure RetryReason where
  reason : String
deriving DecidableEq, Repr

/-- Modelled from the spec: `translateCoreRetryReasons` is not in the provided
sources; the spec states it re-expresses the transport retry-reason list as the
domain type string-for-string, preserving order. -/
def translateCoreRetryReasons (rs : List String) : List RetryReason :=
  rs.map (fun s => { reason := s })

/-- Transport key-value error (`gocbcore.KeyValueError`), fields as read in
error_wrapping.go; `opaq` embeds the transport's per-request Opaque token. -/
structure CoreKeyValueError where
  innerError : ErrValue
  statusCode : Nat
  bucketName : String
  scopeName : String
  collectionName : String
  collectionID : Nat
  errorName : String
  errorDescription : String
  opaq : Nat
  context : String
  ref : String
  retryReasons : List String
  retryAttempts : Nat
deriving DecidableEq, Repr

/-- Modelled from the spec: a structured sub-error carried by a transport view
error (its concrete fields are outside the provided sources). -/
structure CoreViewErrorDesc where
  code : Nat
  message : String
deriving DecidableEq, Repr

/-- Domain view sub-error, matching `CoreViewErrorDesc` field-for-field. -/
structure ViewErrorDesc where
  code : Nat
  message : String
deriving DecidableEq, Repr

/-- Modelled from the spec: element-wise translation of transport view
sub-errors to the domain sub-error type. -/
def translateCoreViewErrorDesc (l : List CoreViewErrorDesc) : List ViewErrorDesc :=
  l.map (fun d => { code := d.code, message := d.message })

/-- Modelled from the spec: a structured sub-error carried by a transport
query error. -/
structure CoreQueryErrorDesc where
  code : Nat
  message : String
deriving DecidableEq, Repr

/-- Domain query sub-error. -/
structure QueryErrorDesc where
  code : Nat
  message : String
deriving DecidableEq, Repr

/-- Modelled from the spec: element-wise translation of transport query
sub-errors. -/
def translateCoreQueryErrorDesc (l : List CoreQueryErrorDesc) : List QueryErrorDesc :=
  l.map (fun d => { code := d.code, message := d.message })

/-- Modelled from the spec: a structured sub-error carried by a transport
analytics error. -/
structure CoreAnalyticsErrorDesc where
  code : Nat
  message : String
deriving DecidableEq, Repr

/-- Domain analytics sub-error. -/
structure AnalyticsErrorDesc where
  code : Nat
  message : String
deriving DecidableEq, Repr

/-- Modelled from the spec: element-wise translation of transport analytics
sub-errors. -/
def translateCoreAnalyticsErrorDesc (l : List CoreAnalyticsErrorDesc) :
    List AnalyticsErrorDesc :=
  l.map (fun d => { code := d.code, message := d.message })

/-- Transport view error (`gocbcore.ViewError`), fields as read in
error_wrapping.go. -/
structure CoreViewError where
  innerError : ErrValue
  designDocumentName : String
  viewName : String
  errors : List CoreViewErrorDesc
  endpoint : String
  retryReasons : List String
  retryAttempts : Nat
deriving DecidableEq, Repr

/-- Transport query error (`gocbcore.N1QLError`). -/
structure CoreN1QLError where
  innerError : ErrValue
  statement : String
  clientContextID : String
  errors : List CoreQueryErrorDesc
  endpoint : String
  retryReasons : List String
  retryAttempts : Nat
deriving DecidableEq, Repr

/-- Transport analytics error (`gocbcore.AnalyticsError`). -/
structure CoreAnalyticsError where
  innerError : ErrValue
  statement : String
  clientContextID : String
  errors : List CoreAnalyticsErrorDesc
  endpoint : String
  retryReasons : List String
  retryAttempts : Nat
deriving DecidableEq, Repr

/-- Transport HTTP-generic error (`gocbcore.HTTPError`). -/
structure CoreHTTPError where
  innerError : ErrValue
  uniqueID : String
  endpoint : String
  retryReasons : List String
  retryAttempts : Nat
deriving DecidableEq, Repr

/-- Domain key-value error (`KeyValueError`), fields as constructed in
error_wrapping.go lines 19-33. -/
structure KeyValueError where
  innerError : ErrValue
  statusCode : Nat
  bucketName : String
  scopeName : String
  collectionName : String
  collectionID : Nat
  errorName : String
  errorDescription : String
  opaq : Nat
  context : String
  ref : String
  retryReasons : List RetryReason
  retryAttempts : Nat
deriving DecidableEq, Repr

/-- Domain view error (`ViewError`), error_wrapping.go lines 36-44. -/
structure ViewError where
  innerError : ErrValue
  designDocumentName : String
  viewName : String
  errors : List ViewErrorDesc
  endpoint : String
  retryReasons : List RetryReason
  retryAttempts : Nat
deriving DecidableEq, Repr

/-- Domain query error (`QueryError`), error_wrapping.go lines 47-55. -/
structure QueryError where
  innerError : ErrValue
  statement : String
  clientContextID : String
  errors : List QueryErrorDesc
  endpoint : String
  retryReasons : List RetryReason
  retryAttempts : Nat
deriving DecidableEq, Repr

/-- Domain analytics error (`AnalyticsError`), error_wrapping.go lines 58-66. -/
structure AnalyticsError where
  innerError : ErrValue
  statement : String
  clientContextID : String
  errors : List AnalyticsErrorDesc
  endpoint : String
  retryReasons : List RetryReason
  retryAttempts : Nat
deriving DecidableEq, Repr

/-- Domain HTTP error (`HTTPError`), error_wrapping.go lines 69-75. -/
structure HTTPError where
  innerError : ErrValue
  uniqueID : String
  endpoint : String
  retryReasons : List RetryReason
  retryAttempts : Nat
deriving DecidableEq, Repr

/-- Error value reaching `maybeEnhanceCoreErr`: the five recognized transport
shapes (the Go type switch matches each concrete struct type at most once; the
shapes are disjoint) or any other error value. -/
inductive CoreError where
  | kv (e : CoreKeyValueError)
  | view (e : CoreViewError)
  | query (e : CoreN1QLError)
  | analytics (e : CoreAnalyticsError)
  | http (e : CoreHTTPError)
  | other (e : ErrValue)
deriving DecidableEq, Repr

/-- Error value returned by `maybeEnhanceCoreErr`: a domain error or the
original unrecognized value passed through. -/
inductive EnhancedError where
  | kv (e : KeyValueError)
  | view (e : ViewError)
  | query (e : QueryError)
  | analytics (e : AnalyticsError)
  | http (e : HTTPError)
  | passthrough (e : ErrValue)
deriving DecidableEq, Repr

/-- Embeds `maybeEnhanceCoreErr` (error_wrapping.go lines 17-78). -/
def maybeEnhanceCoreErr : CoreError → EnhancedError
  | .kv e =>
      .kv { innerError := e.innerError
            statusCode := e.statusCode
            bucketName := e.bucketName
            scopeName := e.scopeName
            collectionName := e.collectionName
            collectionID := e.collectionID
            errorName := e.errorName
            errorDescription := e.errorDescription
            opaq := e.opaq
            context := e.context
            ref := e.ref
            retryReasons := translateCoreRetryReasons e.retryReasons
            retryAttempts := e.retryAttempts }
  | .view e =>
      .view { innerError := e.innerError
              designDocumentName := e.designDocumentName
              viewName := e.viewName
              errors := translateCoreViewErrorDesc e.errors
              endpoint := e.endpoint
              retryReasons := translateCoreRetryReasons e.retryReasons
              retryAttempts := e.retryAttempts }
  | .query e =>
      .query { innerError := e.innerError
               statement := e.statement
               clientContextID := e.clientContextID
               errors := translateCoreQueryErrorDesc e.errors
               endpoint := e.endpoint
               retryReasons := translateCoreRetryReasons e.retryReasons
               retryAttempts := e.retryAttempts }
  | .analytics e =>
      .analytics { innerError := e.innerError
                   statement := e.statement
                   clientContextID := e.clientContextID
                   errors := translateCoreAnalyticsErrorDesc e.errors
                   endpoint := e.endpoint
                   retryReasons := translateCoreRetryReasons e.retryReasons
                   retryAttempts := e.retryAttempts }
  | .http e =>
      .http { innerError := e.innerError
              uniqueID := e.uniqueID
              endpoint := e.endpoint
              retryReasons := translateCoreRetryReasons e.retryReasons
              retryAttempts := e.retryAttempts }
  | .other e => .passthrough e

/-- Retry-reason strings of a transport error (none for unrecognized values). -/
def CoreError.coreRetryReasons : CoreError → Option (List String)
  | .kv e => some e.retryReasons
  | .view e => some e.retryReasons
  | .query e => some e.retryReasons
  | .analytics e => some e.retryReasons
  | .http e => some e.retryReasons
  | .other _ => none

/-- Retry-attempt count of a transport error. -/
def CoreError.coreRetryAttempts : CoreError → Option Nat
  | .kv e => some e.retryAttempts
  | .view e => some e.retryAttempts
  | .query e => some e.retryAttempts
  | .analytics e => some e.retryAttempts
  | .http e => some e.retryAttempts
  | .other _ => none

/-- Retry-reason strings of an enhanced error. -/
def EnhancedError.retryReasonStrings : EnhancedError → Option (List String)
  | .kv e => some (e.retryReasons.map (fun r => r.reason))
  | .view e => some (e.retryReasons.map (fun r => r.reason))
  | .query e => some (e.retryReasons.map (fun r => r.reason))
  | .analytics e => some (e.retryReasons.map (fun r => r.reason))
  | .http e => some (e.retryReasons.map (fun r => r.reason))
  | .passthrough _ => none

/-- Retry-attempt count of an enhanced error. -/
def EnhancedError.enhRetryAttempts : EnhancedError → Option Nat
  | .kv e => some e.retryAttempts
  | .view e => some e.retryAttempts
  | .query e => some e.retryAttempts
  | .analytics e => some e.retryAttempts
  | .http e => some e.retryAttempts
  | .passthrough _ => none

/-- Timeout-relevant subset of `ClusterOptions` (searchquery_options.go
lines 156-184), durations in milliseconds. -/
structure ClusterOptionsModel where
  connectTimeout : Int
  kvTimeout : Int
  viewTimeout : Int
  queryTimeout : Int
  analyticsTimeout : Int
  searchTimeout : Int
  managementTimeout : Int
deriving DecidableEq, Repr

/-- Effective timeouts placed into the cluster state block. -/
structure ResolvedTimeouts where
  connectTimeout : Int
  kvTimeout : Int
  viewTimeout : Int
  queryTimeout : Int
  analyticsTimeout : Int
  searchTimeout : Int
  managementTimeout : Int
deriving DecidableEq, Repr

/-- Embeds the timeout-resolution prefix of `Connect` (searchquery_options.go
lines 224-251): each local starts at its default and is overwritten when the
corresponding option is positive.  The management case reproduces the source
verbatim: it assigns `opts.SearchTimeout`, not `opts.ManagementTimeout`. -/
def connectResolveTimeouts (opts : ClusterOptionsModel) : ResolvedTimeouts :=
  { connectTimeout := if opts.connectTimeout > 0 then opts.connectTimeout else 10000
    kvTimeout := if opts.kvTimeout > 0 then opts.kvTimeout else 2500
    viewTimeout := if opts.viewTimeout > 0 then opts.viewTimeout else 75000
    queryTimeout := if opts.queryTimeout > 0 then opts.queryTimeout else 75000
    analyticsTimeout := if opts.analyticsTimeout > 0 then opts.analyticsTimeout else 75000
    searchTimeout := if opts.searchTimeout > 0 then opts.searchTimeout else 75000
    managementTimeout := if opts.managementTimeout > 0 then opts.searchTimeout else 75000 }

/-- Observable state of a managed connection.  The accessor methods of the Go
`client` interface (`connected`, `getBootstrapError`, `supportsGCCCP`) are not
in the provided sources; modelled from the spec transport-capability interface
as record fields, with `closeErr` the outcome `close()` would report and `id`
identifying the instance. -/
structure Client where
  id : Nat
  connectedB : Bool
  bootstrapErr : Option GocbError
  gcccp : Bool
  closeErr : Option GocbError
deriving DecidableEq, Repr

/-- Modelled from the spec: `newClient` constructs a fresh unconnected
connection with no bootstrap error (capability and close outcome are unknown
until connected; they play no role in the claims about fresh clients). -/
def newClient (id : Nat) : Client :=
  { id := id, connectedB := false, bootstrapErr := none, gcccp := false, closeErr := none }

/-- Registry state of a `Cluster`: the connection map, the floating
cluster-level client slot, and a counter supplying fresh client identities. -/
structure ClusterState where
  connections : List (String × Client)
  clusterClient : Option Client
  nextId : Nat
deriving DecidableEq, Repr

/-- Outcomes of the transport calls a bucket acquisition may perform, indexed
by client identity (the transport layer is an external collaborator; the spec
directs that the core merely stores whatever outcome results). -/
structure ClientEnv where
  buildConfigErr : Nat → Option GocbError
  connectErr : Nat → Option GocbError
  selectBucketErr : Nat → String → Option GocbError

/-- Modelled from the spec: the deterministic ConnectionIdentity of a bucket
(`b.hash()` / `clientStateBlock.Hash()` are not in the provided sources; the
spec says the identity derives from the bucket name and connection
configuration, of which only the name varies here). -/
def bucketHash (name : String) : String := name

/-- Embeds `Cluster.takeClusterClient` (searchquery_options.go lines 403-414):
remove and return the floating client if present. -/
def Cluster.takeClusterClient (st : ClusterState) : Option Client × ClusterState :=
  match st.clusterClient with
  | some cli => (some cli, { st with clusterClient := none })
  | none => (none, st)

/-- Embeds `Cluster.getClient` (searchquery_options.go lines 416-429): return
the registry entry for the hash if present, else a fresh client (not yet
inserted). -/
def Cluster.getClient (st : ClusterState) (hash : String) : Client × ClusterState :=
  match assocGet st.connections hash with
  | some cli => (cli, st)
  | none => (newClient st.nextId, { st with nextId := st.nextId + 1 })

/-- Embeds `Cluster.Bucket` (searchquery_options.go lines 370-401): claim the
floating client and select the bucket on it, or look up / create a client and
build-config + connect it; any failure is recorded as the connection's
bootstrap error; in every branch the resulting client is stored in the
registry under the bucket's identity hash and returned. -/
def Cluster.bucket (env : ClientEnv) (st : ClusterState) (name : String) :
    ClusterState × Client :=
  match Cluster.takeClusterClient st with
  | (some cli, st1) =>
      let cli :=
        match env.selectBucketErr cli.id name with
        | some e => { cli with bootstrapErr := some e }
        | none => cli
      ({ st1 with connections := assocSet st1.connections (bucketHash name) cli }, cli)
  | (none, st1) =>
      let (cli, st2) := Cluster.getClient st1 (bucketHash name)
      let cli :=
        match env.buildConfigErr cli.id with
        | some e => { cli with bootstrapErr := some e }
        | none =>
            match env.connectErr cli.id with
            | some e => { cli with bootstrapErr := some e }
            | none => { cli with connectedB := true }
      ({ st2 with connections := assocSet st2.connections (bucketHash name) cli }, cli)

/-- Embeds the scanning loop of `Cluster.randomClient` (searchquery_options.go
lines 439-446): walk the registry, stopping at the first connected client; on
each non-connected entry, keep the first bootstrap error observed (the Go
assignment runs whenever the accumulator is still nil, so nil bootstrap errors
leave it unset and later entries may still fill it). -/
def scanClients (firstError : Option GocbError) :
    List (String × Client) → Option Client × Option GocbError
  | [] => (none, firstError)
  | (_, c) :: t =>
      if c.connectedB then (some c, firstError)
      else
        scanClients (match firstError with
          | some e => some e
          | none => c.bootstrapErr) t

/-- Embeds `Cluster.randomClient` (searchquery_options.go lines 431-457). -/
def Cluster.randomClient (st : ClusterState) : Except GocbError Client :=
  if st.connections.isEmpty then
    Except.error (GocbError.strError "not connected to cluster")
  else
    match scanClients none st.connections with
    | (some cli, _) => Except.ok cli
    | (none, some e) => Except.error e
    | (none, none) => Except.error (GocbError.strError "not connected to cluster")

/-- Embeds `Cluster.clusterOrRandomClient` (searchquery_options.go
lines 498-517): use the floating client when present, subject to the
cluster-level-operations capability; else fall back to `randomClient`. -/
def Cluster.clusterOrRandomClient (st : ClusterState) : Except GocbError Client :=
  match st.clusterClient with
  | none => Cluster.randomClient st
  | some cli =>
      if cli.gcccp then Except.ok cli
      else Except.error
        (GocbError.strError "cluster-level operations not supported due to cluster version")

/-- Embeds `Cluster.Close` (searchquery_options.go lines 468-496).  The result
carries the post state, the returned error (the Go code overwrites
`overallErr` on every failing close), and the trace of client identities whose
`close()` was invoked, in invocation order.  The source deletes every
registry key but leaves `clusterClient` untouched. -/
def Cluster.close (st : ClusterState) : ClusterState × Option GocbError × List Nat :=
  let r := st.connections.foldl
    (fun (acc : Option GocbError × List Nat) p =>
      ((match p.2.closeErr with
        | some e => some e
        | none => acc.1), acc.2 ++ [p.2.id]))
    (none, [])
  let r :=
    match st.clusterClient with
    | some cc =>
        ((match cc.closeErr with
          | some e => some e
          | none => r.1), r.2 ++ [cc.id])
    | none => r
  ({ st with connections := [] }, r)

/-- First connected client in registry iteration order. -/
def firstConnected : List (String × Client) → Option Client
  | [] => none
  | (_, c) :: t => if c.connectedB then some c else firstConnected t

/-- First non-nil bootstrap error in registry iteration order. -/
def firstBootstrapError : List (String × Client) → Option GocbError
  | [] => none
  | (_, c) :: t =>
      match c.bootstrapErr with
      | some e => some e
      | none => firstBootstrapError t

/-- Last non-nil entry of a list of optional errors, starting from `a0`
(the accumulation discipline of `Cluster.close`). -/
def lastErrFrom (a0 : Option GocbError) (l : List (Option GocbError)) : Option GocbError :=
  l.foldl (fun acc e =>
    match e with
    | some x => some x
    | none => acc) a0

/-- Last non-nil entry of a list of optional errors. -/
def lastErrAmong (l : List (Option GocbError)) : Option GocbError :=
  lastErrFrom none l

/-- Search options selecting only not-bounded consistency. -/
def c1exOpts : SearchOptions :=
  { scanConsistency := 1, limit := 0, skip := 0, explain := false, highlight := none,
    fields := [], sort := [], facets := none, consistentWith := none, raw := none }

/-- Parameter map produced for `c1exOpts`. -/
def c1exMap : GoMap :=
  [("size", JVal.vInt 0), ("from", JVal.vInt 0), ("explain", JVal.vBool false),
   ("fields", JVal.vStrList []), ("sort", JVal.vSortList [])]

/-- Analytics options whose raw override of the readonly key collides with the
`ReadOnly` flag. -/
def c2exOpts : AnalyticsOptions :=
  { serverSideTimeout := 0, clientContextID := "cid",
    raw := some [("readonly", JVal.vBool false)], priority := false,
    positionalParameters := none, namedParameters := none, readOnly := true }

/-- Parameter map produced for `c2exOpts`. -/
def c2exMap : GoMap :=
  [("statement", JVal.vStr "stmt"), ("client_context_id", JVal.vStr "cid"),
   ("readonly", JVal.vBool true)]

/-- Search options with a raw size override shadowing the limit. -/
def c2exSearch : SearchOptions :=
  { scanConsistency := 0, limit := 5, skip := 0, explain := false, highlight := none,
    fields := [], sort := [], facets := none, consistentWith := none,
    raw := some [("size", JVal.vInt 999)] }

/-- Parameter map produced for `c2exSearch`. -/
def c2exSearchMap : GoMap :=
  [("size", JVal.vInt 999), ("from", JVal.vInt 0), ("explain", JVal.vBool false),
   ("fields", JVal.vStrList []), ("sort", JVal.vSortList [])]

/-- Registered connection whose close fails. -/
def c3client1 : Client :=
  { id := 1, connectedB := true, bootstrapErr := none, gcccp := false,
    closeErr := some (GocbError.strError "close failure one") }

/-- Second registered connection whose close fails differently. -/
def c3client2 : Client :=
  { id := 2, connectedB := true, bootstrapErr := none, gcccp := false,
    closeErr := some (GocbError.strError "close failure two") }

/-- Floating cluster client whose close succeeds. -/
def c3cc : Client :=
  { id := 3, connectedB := true, bootstrapErr := none, gcccp := true, closeErr := none }

/-- Registry with two failing connections and a floating client. -/
def c3exState : ClusterState :=
  { connections := [("bucket1", c3client1), ("bucket2", c3client2)],
    clusterClient := some c3cc, nextId := 4 }

/-- Floating cluster client for the bucket-acquisition scenario. -/
def c4cc : Client :=
  { id := 7, connectedB := true, bootstrapErr := none, gcccp := true, closeErr := none }

/-- Transport outcomes: configuration and connection succeed, bucket selection
fails. -/
def c4env : ClientEnv :=
  { buildConfigErr := fun _ => none, connectErr := fun _ => none,
    selectBucketErr := fun _ _ => some (GocbError.strError "select bucket failed") }

/-- Fresh cluster: empty registry, unclaimed floating client. -/
def c4exState : ClusterState :=
  { connections := [], clusterClient := some c4cc, nextId := 10 }

/-- Floating client supporting cluster-level operations. -/
def c5ccGood : Client :=
  { id := 20, connectedB := true, bootstrapErr := none, gcccp := true, closeErr := none }

/-- Floating client without cluster-level-operations support. -/
def c5ccBad : Client :=
  { id := 21, connectedB := true, bootstrapErr := none, gcccp := false, closeErr := none }

/-- Connected registered client. -/
def c5conn : Client :=
  { id := 22, connectedB := true, bootstrapErr := none, gcccp := false, closeErr := none }

/-- Non-connected registered client with no bootstrap error. -/
def c5down1 : Client :=
  { id := 23, connectedB := false, bootstrapErr := none, gcccp := false, closeErr := none }

/-- Non-connected registered client carrying a bootstrap error. -/
def c5down2 : Client :=
  { id := 24, connectedB := false,
    bootstrapErr := some (GocbError.strError "bootstrap failed"), gcccp := false,
    closeErr := none }

/-- Routing state: unclaimed capable floating client. -/
def c5stA : ClusterState := { connections := [], clusterClient := some c5ccGood, nextId := 0 }

/-- Routing state: unclaimed incapable floating client next to a connected
registry entry. -/
def c5stB : ClusterState :=
  { connections := [("b", c5conn)], clusterClient := some c5ccBad, nextId := 0 }

/-- Routing state: claimed floating client, second registry entry connected. -/
def c5stC : ClusterState :=
  { connections := [("a", c5down1), ("b", c5conn)], clusterClient := none, nextId := 0 }

/-- Routing state: no connected entry, one bootstrap error in the registry. -/
def c5stD : ClusterState :=
  { connections := [("a", c5down1), ("b", c5down2)], clusterClient := none, nextId := 0 }

/-- Routing state: empty registry, claimed floating client. -/
def c5stE : ClusterState := { connections := [], clusterClient := none, nextId := 0 }

/-- Analytics options supplying both positional and named parameters. -/
def c6exOpts : AnalyticsOptions :=
  { serverSideTimeout := 0, clientContextID := "cid", raw := none, priority := false,
    positionalParameters := some [JVal.vInt 1],
    namedParameters := some [("a", JVal.vInt 1)], readOnly := false }

/-- Search options supplying both a consistency level and a token. -/
def c6exSearch : SearchOptions :=
  { scanConsistency := 1, limit := 0, skip := 0, explain := false, highlight := none,
    fields := [], sort := [], facets := none,
    consistentWith := some { tokens := [] }, raw := none }

/-- Cluster options requesting a management timeout while leaving the search
timeout unset. -/
def c8exOpts : ClusterOptionsModel :=
  { connectTimeout := 0, kvTimeout := 0, viewTimeout := 0, queryTimeout := 0,
    analyticsTimeout := 0, searchTimeout := 0, managementTimeout := 5000 }

/-- Base analytics options with no parameters. -/
def c9base : AnalyticsOptions :=
  { serverSideTimeout := 0, clientContextID := "cid", raw := none, priority := false,
    positionalParameters := none, namedParameters := none, readOnly := false }

/-- Analytics options with the unprefixed named parameter a = 1. -/
def c9exOpts : AnalyticsOptions := { c9base with namedParameters := some [("a", JVal.vInt 1)] }

/-- Analytics options with the already-prefixed named parameter. -/
def c9exOpts2 : AnalyticsOptions :=
  { c9base with namedParameters := some [("$a", JVal.vInt 1)] }

/-- Parameter map produced for both `c9exOpts` and `c9exOpts2`. -/
def c9exMap : GoMap :=
  [("statement", JVal.vStr "stmt"), ("client_context_id", JVal.vStr "cid"),
   ("$a", JVal.vInt 1)]

/-- Search options with an out-of-range scan-consistency value. -/
def c10exOpts : SearchOptions :=
  { scanConsistency := 2, limit := 0, skip := 0, explain := false, highlight := none,
    fields := [], sort := [], facets := none, consistentWith := none, raw := none }

/-- Reading back the key just written yields the written value. -/
theorem assocGet_assocSet_self {α : Type} (m : List (String × α)) (k : String) (v : α) :
    assocGet (assocSet m k v) k = some v := by
  induction m with
  | nil => simp [assocSet, assocGet]
  | cons p t ih =>
      obtain ⟨k1, v1⟩ := p
      by_cases h : k1 = k
      · simp [assocSet, h, assocGet]
      · simp [assocSet, h, assocGet, ih]

/-- Writing one key leaves every other key unchanged. -/
theorem assocGet_assocSet_ne {α : Type} (m : List (String × α)) (k k2 : String) (v : α)
    (h : k2 ≠ k) : assocGet (assocSet m k v) k2 = assocGet m k2 := by
  have h3 : ¬k = k2 := fun hh => h (Eq.symm hh)
  induction m with
  | nil => simp [assocSet, assocGet, h3]
  | cons p t ih =>
      obtain ⟨k1, v1⟩ := p
      by_cases h1 : k1 = k
      · subst h1
        simp [assocSet, assocGet, h3]
      · by_cases h2 : k1 = k2
        · subst h2
          simp [assocSet, assocGet, h1]
        · simp [assocSet, assocGet, h1, h2, ih]

/-- Folding a batch of writes over keys not containing `k` leaves `k`
unchanged. -/
theorem assocGet_setFold_not_mem {α : Type} (l : List (String × α))
    (m : List (String × α)) (k : String) (h : k ∉ l.map Prod.fst) :
    assocGet (l.foldl (fun acc p => assocSet acc p.1 p.2) m) k = assocGet m k := by
  induction l generalizing m with
  | nil => rfl
  | cons p t ih =>
      simp only [List.map_cons, List.mem_cons, not_or] at h
      simp only [List.foldl_cons]
      rw [ih _ h.2, assocGet_assocSet_ne _ _ _ _ h.1]

/-- Folding a batch of writes with distinct keys makes each written key read
back its value, whatever map the fold started from. -/
theorem assocGet_setFold_mem {α : Type} (l : List (String × α)) (m : List (String × α))
    (k : String) (v : α) (hnd : (l.map Prod.fst).Nodup) (hm : (k, v) ∈ l) :
    assocGet (l.foldl (fun acc p => assocSet acc p.1 p.2) m) k = some v := by
  induction l generalizing m with
  | nil => cases hm
  | cons p t ih =>
      simp only [List.map_cons, List.nodup_cons] at hnd
      simp only [List.foldl_cons]
      rcases List.mem_cons.mp hm with h | h
      · subst h
        rw [assocGet_setFold_not_mem t _ k hnd.1]
        exact assocGet_assocSet_self m k v
      · exact ih _ hnd.2 h

/-- The named-parameter fold equals a plain fold over the dollar-prefixed
pairs. -/
theorem foldl_dollar_eq (nps : List (String × JVal)) (m0 : GoMap) :
    nps.foldl (fun m p => assocSet m (dollarKey p.1) p.2) m0
      = (nps.map (fun p => (dollarKey p.1, p.2))).foldl
          (fun m p => assocSet m p.1 p.2) m0 := by
  induction nps generalizing m0 with
  | nil => rfl
  | cons p t ih => simp only [List.foldl_cons, List.map_cons, ih]

/-- A dollar-prefixed string is never the readonly key. -/
theorem dollar_append_ne_readonly (k : String) : "$" ++ k ≠ "readonly" := by
  intro h
  have h2 := congrArg String.data h
  simp [String.data_append] at h2

/-- The dollar-key transformation never produces the readonly key. -/
theorem dollarKey_ne_readonly (k : String) : dollarKey k ≠ "readonly" := by
  unfold dollarKey
  by_cases h : strBegins k "$" = true
  · simp only [h, if_true]
    intro hk
    subst hk
    simp [strBegins, charsBegin] at h
  · simp only [h, if_false, Bool.false_eq_true]
    exact dollar_append_ne_readonly k

/-- Closed form of the close-accumulation fold: the error component threads
the last failing close, the trace component appends every client id. -/
theorem close_fold_spec (l : List (String × Client)) (a0 : Option GocbError)
    (t0 : List Nat) :
    l.foldl
      (fun (acc : Option GocbError × List Nat) p =>
        ((match p.2.closeErr with
          | some e => some e
          | none => acc.1), acc.2 ++ [p.2.id]))
      (a0, t0)
      = (lastErrFrom a0 (l.map (fun p => p.2.closeErr)),
         t0 ++ l.map (fun p => p.2.id)) := by
  induction l generalizing a0 t0 with
  | nil => simp [lastErrFrom]
  | cons p t ih =>
      simp only [List.foldl_cons, List.map_cons]
      rw [ih]
      refine Prod.ext ?_ ?_
      · rfl
      · simp

/-- The scanning loop stops at the first connected client, whatever error has
accumulated so far. -/
theorem scanClients_fst (l : List (String × Client)) (fe : Option GocbError) :
    (scanClients fe l).1 = firstConnected l := by
  induction l generalizing fe with
  | nil => rfl
  | cons p t ih =>
      obtain ⟨k, c⟩ := p
      by_cases h : c.connectedB
      · simp [scanClients, firstConnected, h]
      · simp [scanClients, firstConnected, h, ih]

/-- When no client is connected, the scanning loop accumulates the first
non-nil bootstrap error (or keeps an already accumulated one). -/
theorem scanClients_snd (l : List (String × Client)) (fe : Option GocbError)
    (h : firstConnected l = none) :
    (scanClients fe l).2
      = (match fe with
         | some e => some e
         | none => firstBootstrapError l) := by
  induction l generalizing fe with
  | nil => cases fe <;> rfl
  | cons p t ih =>
      obtain ⟨k, c⟩ := p
      have hc : c.connectedB = false := by
        by_contra hcc
        simp only [firstConnected, Bool.not_eq_false] at h hcc
        rw [if_pos hcc] at h
        exact Option.noConfusion h
      have ht : firstConnected t = none := by
        simpa [firstConnected, hc] using h
      cases fe with
      | some e =>
          simp only [scanClients, hc, Bool.false_eq_true, if_false]
          rw [ih _ ht]
      | none =>
          simp only [scanClients, hc, Bool.false_eq_true, if_false]
          rw [ih _ ht]
          cases hb : c.bootstrapErr <;> simp [firstBootstrapError, hb]

/-- Projecting the reason back out of the translated retry reasons recovers
the original strings in order. -/
theorem translateCoreRetryReasons_roundtrip (rs : List String) :
    (translateCoreRetryReasons rs).map (fun r => r.reason) = rs := by
  induction rs with
  | nil => rfl
  | cons s t ih =>
      simp only [translateCoreRetryReasons, List.map_cons] at ih ⊢
      rw [ih]

/-- Successful search encoding with a raw map present produces the raw fold
over some base map. -/
theorem searchToMap_ok_raw (opts : SearchOptions) (r : List (String × JVal)) (m : GoMap)
    (hraw : opts.raw = some r) (hok : SearchOptions.toMap opts = Except.ok m) :
    ∃ base, m = r.foldl (fun acc p => assocSet acc p.1 p.2) base := by
  by_cases h1 : opts.scanConsistency ≠ 0 ∧ opts.consistentWith.isSome
  · simp [SearchOptions.toMap, h1] at hok
  · by_cases h2 : opts.scanConsistency ≠ 0 ∧ opts.scanConsistency ≠ 1
    · have hB : opts.consistentWith.isSome = false := by
        cases hs : opts.consistentWith.isSome
        · rfl
        · exact absurd ⟨h2.1, hs⟩ h1
      simp [SearchOptions.toMap, h2, hB] at hok
    · simp only [SearchOptions.toMap] at hok
      rw [if_neg h1, if_neg h2, hraw] at hok
      injection hok with hX
      exact ⟨_, hX.symm⟩

/-- Successful analytics encoding with a raw map present produces the raw fold
over some base map, wrapped by the trailing readonly write. -/
theorem analyticsToMap_ok_raw (aopts : AnalyticsOptions) (st : String)
    (r : List (String × JVal)) (m : GoMap) (hraw : aopts.raw = some r)
    (hok : AnalyticsOptions.toMap aopts st = Except.ok m) :
    ∃ base, m =
      (if aopts.readOnly then
        assocSet (r.foldl (fun acc p => assocSet acc p.1 p.2) base) "readonly"
          (JVal.vBool true)
      else r.foldl (fun acc p => assocSet acc p.1 p.2) base) := by
  by_cases herr : aopts.positionalParameters.isSome ∧ aopts.namedParameters.isSome
  · simp [AnalyticsOptions.toMap, herr] at hok
  · simp only [AnalyticsOptions.toMap] at hok
    rw [if_neg herr, hraw] at hok
    injection hok with hX
    exact ⟨_, hX.symm⟩

/-- Successful analytics encoding with named parameters and no raw overrides
produces the dollar-keyed named-parameter fold over some base map, wrapped by
the trailing readonly write. -/
theorem analyticsToMap_ok_named (aopts : AnalyticsOptions) (st : String)
    (nps : List (String × JVal)) (m : GoMap)
    (hnamed : aopts.namedParameters = some nps)
    (hpos : aopts.positionalParameters = none) (hraw : aopts.raw = none)
    (hok : AnalyticsOptions.toMap aopts st = Except.ok m) :
    ∃ base, m =
      (if aopts.readOnly then
        assocSet (nps.foldl (fun acc p => assocSet acc (dollarKey p.1) p.2) base)
          "readonly" (JVal.vBool true)
      else nps.foldl (fun acc p => assocSet acc (dollarKey p.1) p.2) base) := by
  have herr : ¬(aopts.positionalParameters.isSome ∧ aopts.namedParameters.isSome) := by
    simp [hpos]
  simp only [AnalyticsOptions.toMap] at hok
  rw [if_neg herr, hpos, hnamed, hraw] at hok
  injection hok with hX
  exact ⟨_, hX.symm⟩

/-- Keys of the dollar-prefixed pair list are the dollar-prefixed keys. -/
theorem map_fst_dollar (nps : List (String × JVal)) :
    (nps.map (fun p => (dollarKey p.1, p.2))).map Prod.fst
      = nps.map (fun p => dollarKey p.1) := by
  induction nps with
  | nil => rfl
  | cons p t ih => simp only [List.map_cons, ih]

/-- C2 counterexample: analytics encoding applies the ReadOnly flag after the
raw merge, so a raw override of the readonly key is shadowed by the computed
value, contrary to the claim that raw overrides shadow every computed key. -/
theorem c2_counterexample_readonly_shadows_raw :
    AnalyticsOptions.toMap c2exOpts "stmt" = Except.ok c2exMap
    ∧ assocGet c2exMap "readonly" = some (JVal.vBool true)
    ∧ some (JVal.vBool true) ≠ some (JVal.vBool false) :=
  ⟨rfl, rfl, by simp⟩

/-- C2 amended: in search encoding every raw key reads back its raw value in
the output; in analytics encoding the same holds for every raw key except
"readonly" when the ReadOnly flag is set (the source writes the readonly key
after merging raw). -/
theorem c2_raw_overrides :
    (∀ (sopts : SearchOptions) (r : List (String × JVal)) (m : GoMap) (k : String)
        (v : JVal), sopts.raw = some r → (r.map Prod.fst).Nodup → (k, v) ∈ r →
        SearchOptions.toMap sopts = Except.ok m → assocGet m k = some v)
    ∧ (∀ (aopts : AnalyticsOptions) (st : String) (r : List (String × JVal)) (m : GoMap)
        (k : String) (v : JVal), aopts.raw = some r → (r.map Prod.fst).Nodup →
        (k, v) ∈ r → (aopts.readOnly = true → k ≠ "readonly") →
        AnalyticsOptions.toMap aopts st = Except.ok m → assocGet m k = some v) := by
  constructor
  · intro sopts r m k v hraw hnd hmem hok
    obtain ⟨base, rfl⟩ := searchToMap_ok_raw sopts r m hraw hok
    exact assocGet_setFold_mem r base k v hnd hmem
  · intro aopts st r m k v hraw hnd hmem hkro hok
    obtain ⟨base, rfl⟩ := analyticsToMap_ok_raw aopts st r m hraw hok
    by_cases hro : aopts.readOnly
    · rw [if_pos hro, assocGet_assocSet_ne _ _ _ _ (hkro hro)]
      exact assocGet_setFold_mem r base k v hnd hmem
    · rw [if_neg hro]
      exact assocGet_setFold_mem r base k v hnd hmem

/-- Witness for C2 at the claimed concrete inputs: raw size 999 with limit 5
yields size 999. -/
theorem c2_raw_overrides_witness :
    SearchOptions.toMap c2exSearch = Except.ok c2exSearchMap
    ∧ c2exSearch.limit = 5
    ∧ assocGet c2exSearchMap "size" = some (JVal.vInt 999) :=
  ⟨rfl, rfl,
   c2_raw_overrides.1 c2exSearch [("size", JVal.vInt 999)] c2exSearchMap "size"
     (JVal.vInt 999) rfl (by decide) (List.mem_singleton.mpr rfl) rfl⟩

/-- C9: each named parameter is emitted under its dollar-prefixed key (the key
is unchanged when it already begins with a dollar sign), so the unprefixed and
prefixed spellings encode to identical output maps. -/
theorem c9_named_parameter_prefixing :
    (∀ (aopts : AnalyticsOptions) (st : String) (nps : List (String × JVal)) (m : GoMap)
        (k : String) (v : JVal), aopts.namedParameters = some nps →
        aopts.positionalParameters = none → aopts.raw = none →
        (nps.map (fun p => dollarKey p.1)).Nodup → (k, v) ∈ nps →
        AnalyticsOptions.toMap aopts st = Except.ok m →
        assocGet m (dollarKey k) = some v)
    ∧ (∀ (aopts : AnalyticsOptions) (st : String) (v : JVal),
        AnalyticsOptions.toMap { aopts with namedParameters := some [("a", v)] } st
          = AnalyticsOptions.toMap { aopts with namedParameters := some [("$a", v)] } st)
    ∧ dollarKey "a" = "$a" ∧ dollarKey "$a" = "$a"
    ∧ (∀ k, strBegins k "$" = true → dollarKey k = k)
    ∧ (∀ k, strBegins k "$" = false → dollarKey k = "$" ++ k) := by
  refine ⟨?_, fun aopts st v => rfl, rfl, rfl, fun k h => by simp [dollarKey, h],
    fun k h => by simp [dollarKey, h]⟩
  intro aopts st nps m k v hnamed hpos hraw hnd hmem hok
  obtain ⟨base, rfl⟩ := analyticsToMap_ok_named aopts st nps m hnamed hpos hraw hok
  have hmem2 : (dollarKey k, v) ∈ nps.map (fun p => (dollarKey p.1, p.2)) :=
    List.mem_map_of_mem _ hmem
  have hnd2 : ((nps.map (fun p => (dollarKey p.1, p.2))).map Prod.fst).Nodup := by
    rw [map_fst_dollar]
    exact hnd
  by_cases hro : aopts.readOnly
  · rw [if_pos hro,
      assocGet_assocSet_ne _ _ _ _ (dollarKey_ne_readonly k), foldl_dollar_eq]
    exact assocGet_setFold_mem _ base (dollarKey k) v hnd2 hmem2
  · rw [if_neg hro, foldl_dollar_eq]
    exact assocGet_setFold_mem _ base (dollarKey k) v hnd2 hmem2

/-- Witness for C9: named parameter a = 1 and named parameter dollar-a = 1
encode identically, and the output carries dollar-a = 1. -/
theorem c9_named_parameter_prefixing_witness :
    AnalyticsOptions.toMap c9exOpts "stmt" = Except.ok c9exMap
    ∧ AnalyticsOptions.toMap c9exOpts "stmt" = AnalyticsOptions.toMap c9exOpts2 "stmt"
    ∧ assocGet c9exMap (dollarKey "a") = some (JVal.vInt 1) :=
  ⟨rfl, c9_named_parameter_prefixing.2.1 c9base "stmt" (JVal.vInt 1),
   c9_named_parameter_prefixing.1 c9exOpts "stmt" [("a", JVal.vInt 1)] c9exMap "a"
     (JVal.vInt 1) rfl rfl rfl (by decide) (List.mem_singleton.mpr rfl) rfl⟩

/-- C10: for every SearchOptions with ConsistentWith nil and ScanConsistency
set to any value other than unset (0) or NotBounded (1), toMap returns the
invalid-arguments error "unexpected consistency option" and no parameter map
escapes. -/
theorem c10_unexpected_consistency (opts : SearchOptions)
    (h1 : opts.consistentWith = none) (h2 : opts.scanConsistency ≠ 0)
    (h3 : opts.scanConsistency ≠ 1) :
    SearchOptions.toMap opts
      = Except.error (GocbError.invalidArguments "unexpected consistency option") := by
  simp [SearchOptions.toMap, h1, h2, h3]

/-- Witness for C10 at the concrete consistency value 2. -/
theorem c10_unexpected_consistency_witness :
    c10exOpts.consistentWith = none ∧ c10exOpts.scanConsistency ≠ 0
    ∧ c10exOpts.scanConsistency ≠ 1
    ∧ SearchOptions.toMap c10exOpts
        = Except.error (GocbError.invalidArguments "unexpected consistency option") :=
  ⟨rfl, by decide, by decide,
   c10_unexpected_consistency c10exOpts rfl (by decide) (by decide)⟩

/-- C6 counterexample: analytics encoding with both parameter styles fails
with a plain error built by errors.New, not with the invalid-arguments error
kind the claim demands. -/
theorem c6_counterexample_plain_error :
    AnalyticsOptions.toMap c6exOpts "q"
      = Except.error
          (GocbError.strError "Positional and named parameters must be used exclusively")
    ∧ GocbError.isInvalidArgs
        (GocbError.strError "Positional and named parameters must be used exclusively")
        = false :=
  ⟨rfl, rfl⟩

/-- C6 amended: search encoding fails with an invalid-arguments error whenever
both consistency mechanisms are supplied, and analytics encoding fails with a
plain mutual-exclusion error whenever both parameter styles are supplied; in
both cases no parameter map is produced. -/
theorem c6_mutual_exclusion :
    (∀ sopts : SearchOptions, sopts.scanConsistency ≠ 0 →
        sopts.consistentWith.isSome = true →
        SearchOptions.toMap sopts
          = Except.error (GocbError.invalidArguments
              "ScanConsistency and ConsistentWith must be used exclusively"))
    ∧ (∀ (aopts : AnalyticsOptions) (st : String),
        aopts.positionalParameters.isSome = true →
        aopts.namedParameters.isSome = true →
        AnalyticsOptions.toMap aopts st
          = Except.error (GocbError.strError
              "Positional and named parameters must be used exclusively")) := by
  constructor
  · intro sopts h1 h2
    simp [SearchOptions.toMap, h1, h2]
  · intro aopts st h1 h2
    simp [AnalyticsOptions.toMap, h1, h2]

/-- Witness for C6 at concrete conflicting option sets. -/
theorem c6_mutual_exclusion_witness :
    SearchOptions.toMap c6exSearch
      = Except.error (GocbError.invalidArguments
          "ScanConsistency and ConsistentWith must be used exclusively")
    ∧ AnalyticsOptions.toMap c6exOpts "q"
        = Except.error (GocbError.strError
            "Positional and named parameters must be used exclusively") :=
  ⟨c6_mutual_exclusion.1 c6exSearch (by decide) rfl,
   c6_mutual_exclusion.2 c6exOpts "q" rfl rfl⟩

/-- C8: whenever a positive management timeout is requested, Connect assigns
the raw SearchTimeout option (not the supplied ManagementTimeout) as the
effective management timeout; with ManagementTimeout 5000 and SearchTimeout
unset the effective management timeout is 0. -/
theorem c8_managementTimeout_copies_searchTimeout :
    (∀ opts : ClusterOptionsModel, 0 < opts.managementTimeout →
        (connectResolveTimeouts opts).managementTimeout = opts.searchTimeout)
    ∧ (connectResolveTimeouts c8exOpts).managementTimeout = 0 := by
  refine ⟨fun opts h => ?_, by decide⟩
  simp only [connectResolveTimeouts]
  rw [if_pos h]

/-- Witness for C8 at the concrete failing input. -/
theorem c8_managementTimeout_witness :
    (0 : Int) < c8exOpts.managementTimeout
    ∧ (connectResolveTimeouts c8exOpts).managementTimeout = c8exOpts.searchTimeout :=
  ⟨by decide, c8_managementTimeout_copies_searchTimeout.1 c8exOpts (by decide)⟩

/-- C7: the enhancer preserves retry metadata (reason strings in order and
attempt counts) on every input, maps each of the five recognized transport
error kinds to the corresponding domain error with every payload field copied
one-to-one and sub-error lists translated element-wise, and returns any
unrecognized error unchanged. -/
theorem c7_enhancement_preserves_payload :
    (∀ e : CoreError,
        (maybeEnhanceCoreErr e).retryReasonStrings = e.coreRetryReasons
        ∧ (maybeEnhanceCoreErr e).enhRetryAttempts = e.coreRetryAttempts)
    ∧ (∀ e, maybeEnhanceCoreErr (CoreError.kv e)
        = EnhancedError.kv
            { innerError := e.innerError, statusCode := e.statusCode,
              bucketName := e.bucketName, scopeName := e.scopeName,
              collectionName := e.collectionName, collectionID := e.collectionID,
              errorName := e.errorName, errorDescription := e.errorDescription,
              opaq := e.opaq, context := e.context, ref := e.ref,
              retryReasons := translateCoreRetryReasons e.retryReasons,
              retryAttempts := e.retryAttempts })
    ∧ (∀ e, maybeEnhanceCoreErr (CoreError.view e)
        = EnhancedError.view
            { innerError := e.innerError,
              designDocumentName := e.designDocumentName, viewName := e.viewName,
              errors := translateCoreViewErrorDesc e.errors, endpoint := e.endpoint,
              retryReasons := translateCoreRetryReasons e.retryReasons,
              retryAttempts := e.retryAttempts })
    ∧ (∀ e, maybeEnhanceCoreErr (CoreError.query e)
        = EnhancedError.query
            { innerError := e.innerError, statement := e.statement,
              clientContextID := e.clientContextID,
              errors := translateCoreQueryErrorDesc e.errors, endpoint := e.endpoint,
              retryReasons := translateCoreRetryReasons e.retryReasons,
              retryAttempts := e.retryAttempts })
    ∧ (∀ e, maybeEnhanceCoreErr (CoreError.analytics e)
        = EnhancedError.analytics
            { innerError := e.innerError, statement := e.statement,
              clientContextID := e.clientContextID,
              errors := translateCoreAnalyticsErrorDesc e.errors,
              endpoint := e.endpoint,
              retryReasons := translateCoreRetryReasons e.retryReasons,
              retryAttempts := e.retryAttempts })
    ∧ (∀ e, maybeEnhanceCoreErr (CoreError.http e)
        = EnhancedError.http
            { innerError := e.innerError, uniqueID := e.uniqueID,
              endpoint := e.endpoint,
              retryReasons := translateCoreRetryReasons e.retryReasons,
              retryAttempts := e.retryAttempts })
    ∧ (∀ o, maybeEnhanceCoreErr (CoreError.other o) = EnhancedError.passthrough o) := by
  refine ⟨?_, fun e => rfl, fun e => rfl, fun e => rfl, fun e => rfl, fun e => rfl,
    fun o => rfl⟩
  intro e
  cases e <;>
    simp [maybeEnhanceCoreErr, EnhancedError.retryReasonStrings,
      CoreError.coreRetryReasons, EnhancedError.enhRetryAttempts,
      CoreError.coreRetryAttempts, translateCoreRetryReasons_roundtrip]

/-- C1: search encoding never emits a "ctl" key (unless the caller smuggles
one in through Raw): the source builds the ctl/consistency object locally and
drops it without storing it into the output map. -/
theorem c1_ctl_never_emitted (opts : SearchOptions) (m : GoMap)
    (hraw : opts.raw = none) (hok : SearchOptions.toMap opts = Except.ok m) :
    assocGet m "ctl" = none := by
  by_cases h1 : opts.scanConsistency ≠ 0 ∧ opts.consistentWith.isSome
  · simp [SearchOptions.toMap, h1] at hok
  · by_cases h2 : opts.scanConsistency ≠ 0 ∧ opts.scanConsistency ≠ 1
    · have hB : opts.consistentWith.isSome = false := by
        cases hs : opts.consistentWith.isSome
        · rfl
        · exact absurd ⟨h2.1, hs⟩ h1
      simp [SearchOptions.toMap, h2, hB] at hok
    · simp only [SearchOptions.toMap] at hok
      rw [if_neg h1, if_neg h2, hraw] at hok
      injection hok with hX
      subst hX
      rcases hh : opts.highlight with _ | hl <;>
        rcases hf : opts.facets with _ | fs <;>
          simp only [hh, hf] <;> rfl

/-- Witness for C1 at the claim's failing input (not-bounded consistency is
selected, yet the output map has no ctl key although the dropped local ctl
object carried level not_bounded). -/
theorem c1_ctl_never_emitted_witness :
    SearchOptions.toMap c1exOpts = Except.ok c1exMap
    ∧ assocGet c1exMap "ctl" = none
    ∧ SearchOptions.droppedCtl c1exOpts
        = some [("consistency", JVal.vObj [("level", JVal.vStr "not_bounded")])] :=
  ⟨rfl, c1_ctl_never_emitted c1exOpts c1exMap rfl rfl, rfl⟩

/-- Taking the floating client from a state without one is a no-op. -/
theorem takeClusterClient_none (st : ClusterState) (h : st.clusterClient = none) :
    Cluster.takeClusterClient st = (none, st) := by
  simp [Cluster.takeClusterClient, h]

/-- Claim branch of bucket acquisition: the returned client keeps the floating
client's identity. -/
theorem bucket_claim_id (env : ClientEnv) (st : ClusterState) (name : String)
    (cli : Client) (hcc : st.clusterClient = some cli) :
    (Cluster.bucket env st name).2.id = cli.id := by
  simp only [Cluster.bucket, Cluster.takeClusterClient, hcc]
  cases hsel : env.selectBucketErr cli.id name <;> simp [hsel]

/-- Claim branch of bucket acquisition: a bucket-selection failure is recorded
as the returned connection's bootstrap error. -/
theorem bucket_claim_bootstrapErr (env : ClientEnv) (st : ClusterState) (name : String)
    (cli : Client) (e : GocbError) (hcc : st.clusterClient = some cli)
    (hsel : env.selectBucketErr cli.id name = some e) :
    (Cluster.bucket env st name).2.bootstrapErr = some e := by
  simp only [Cluster.bucket, Cluster.takeClusterClient, hcc, hsel]

/-- Claim branch of bucket acquisition: the floating slot is empty afterwards. -/
theorem bucket_claim_post_cc (env : ClientEnv) (st : ClusterState) (name : String)
    (cli : Client) (hcc : st.clusterClient = some cli) :
    (Cluster.bucket env st name).1.clusterClient = none := by
  simp only [Cluster.bucket, Cluster.takeClusterClient, hcc]

/-- Claim branch of bucket acquisition: registry entries under other identity
hashes are untouched. -/
theorem bucket_claim_conn_other (env : ClientEnv) (st : ClusterState) (name : String)
    (cli : Client) (k : String) (hcc : st.clusterClient = some cli)
    (hk : k ≠ bucketHash name) :
    assocGet (Cluster.bucket env st name).1.connections k
      = assocGet st.connections k := by
  simp only [Cluster.bucket, Cluster.takeClusterClient, hcc]
  cases hsel : env.selectBucketErr cli.id name <;>
    simp [hsel, assocGet_assocSet_ne _ _ _ _ hk]

/-- Claim branch of bucket acquisition: the fresh-identity counter is
untouched. -/
theorem bucket_claim_nextId (env : ClientEnv) (st : ClusterState) (name : String)
    (cli : Client) (hcc : st.clusterClient = some cli) :
    (Cluster.bucket env st name).1.nextId = st.nextId := by
  simp only [Cluster.bucket, Cluster.takeClusterClient, hcc]

/-- Create branch of bucket acquisition: with no floating client and no
registry entry under the identity, the returned client carries the fresh
identity. -/
theorem bucket_fresh_id (env : ClientEnv) (st : ClusterState) (name : String)
    (hcc : st.clusterClient = none)
    (hget : assocGet st.connections (bucketHash name) = none) :
    (Cluster.bucket env st name).2.id = st.nextId := by
  simp only [Cluster.bucket, Cluster.takeClusterClient, Cluster.getClient, hcc, hget]
  cases hb : env.buildConfigErr (newClient st.nextId).id
  · cases hcn : env.connectErr (newClient st.nextId).id <;> simp [hb, hcn, newClient]
  · simp [hb, newClient]

/-- Every branch of bucket acquisition stores the returned client in the
registry under the bucket's identity hash. -/
theorem bucket_stores (env : ClientEnv) (st : ClusterState) (name : String) :
    assocGet (Cluster.bucket env st name).1.connections (bucketHash name)
      = some (Cluster.bucket env st name).2 := by
  cases hcc : st.clusterClient with
  | some cli =>
      simp only [Cluster.bucket, Cluster.takeClusterClient, hcc]
      cases hsel : env.selectBucketErr cli.id name <;>
        simp [hsel, assocGet_assocSet_self]
  | none =>
      simp only [Cluster.bucket, Cluster.takeClusterClient, Cluster.getClient, hcc]
      cases hget : assocGet st.connections (bucketHash name) with
      | some cli0 =>
          simp only [hget]
          cases hb : env.buildConfigErr cli0.id
          · cases hcn : env.connectErr cli0.id <;>
              simp [hb, hcn, assocGet_assocSet_self]
          · simp [hb, assocGet_assocSet_self]
      | none =>
          simp only [hget]
          cases hb : env.buildConfigErr (newClient st.nextId).id
          · cases hcn : env.connectErr (newClient st.nextId).id <;>
              simp [hb, hcn, assocGet_assocSet_self]
          · simp [hb, assocGet_assocSet_self]

/-- C3 counterexample: with two failing connections, Close returns the second
(last) close error, not the first, and the floating cluster client survives
Close still claimable. -/
theorem c3_counterexample_close :
    (Cluster.close c3exState).2.1 = some (GocbError.strError "close failure two")
    ∧ GocbError.strError "close failure two" ≠ GocbError.strError "close failure one"
    ∧ (Cluster.close c3exState).1.clusterClient = some c3cc
    ∧ Cluster.takeClusterClient (Cluster.close c3exState).1
        = (some c3cc, { (Cluster.close c3exState).1 with clusterClient := none }) :=
  ⟨rfl, by decide, rfl, rfl⟩

/-- C3 amended: Close invokes close on every registered connection and then on
the floating client if present (the trace lists every identity in order, so
earlier failures never prevent later closes), returns the last close error
encountered (nil when all succeed), and empties the connection registry; the
floating cluster-client reference, however, is not cleared. -/
theorem c3_close_best_effort (st : ClusterState) :
    (Cluster.close st).2.2
      = st.connections.map (fun p => p.2.id)
        ++ (match st.clusterClient with
            | some cc => [cc.id]
            | none => [])
    ∧ (Cluster.close st).2.1
        = lastErrAmong
            (st.connections.map (fun p => p.2.closeErr)
             ++ (match st.clusterClient with
                 | some cc => [cc.closeErr]
                 | none => []))
    ∧ (Cluster.close st).1.connections = []
    ∧ (Cluster.close st).1.clusterClient = st.clusterClient := by
  cases hcc : st.clusterClient with
  | none =>
      refine ⟨?_, ?_, rfl, ?_⟩ <;>
        simp [Cluster.close, close_fold_spec, hcc, lastErrAmong, lastErrFrom]
  | some cc =>
      refine ⟨?_, ?_, rfl, ?_⟩ <;>
        simp [Cluster.close, close_fold_spec, hcc, lastErrAmong, lastErrFrom,
          List.foldl_append]

/-- C4: an unclaimed floating client is returned by the first bucket
acquisition with its identity intact, selection failures are recorded on it as
bootstrap errors, the floating slot is empty afterwards (takeClusterClient
yields nothing), a subsequent acquisition for a different identity obtains a
distinct connection, and every branch stores the returned connection in the
registry under the bucket's identity hash. -/
theorem c4_bucket_claims_floating_once :
    (∀ (env : ClientEnv) (st : ClusterState) (name : String) (cli : Client),
        st.clusterClient = some cli →
        (Cluster.bucket env st name).2.id = cli.id
        ∧ (∀ e, env.selectBucketErr cli.id name = some e →
            (Cluster.bucket env st name).2.bootstrapErr = some e)
        ∧ (Cluster.bucket env st name).1.clusterClient = none
        ∧ Cluster.takeClusterClient (Cluster.bucket env st name).1
            = (none, (Cluster.bucket env st name).1))
    ∧ (∀ (env : ClientEnv) (st : ClusterState) (name name2 : String) (cli : Client),
        st.clusterClient = some cli → cli.id ≠ st.nextId →
        bucketHash name2 ≠ bucketHash name →
        assocGet st.connections (bucketHash name2) = none →
        (Cluster.bucket env (Cluster.bucket env st name).1 name2).2.id ≠ cli.id)
    ∧ (∀ (env : ClientEnv) (st : ClusterState) (name : String),
        assocGet (Cluster.bucket env st name).1.connections (bucketHash name)
          = some (Cluster.bucket env st name).2) := by
  refine ⟨?_, ?_, fun env st name => bucket_stores env st name⟩
  · intro env st name cli hcc
    exact ⟨bucket_claim_id env st name cli hcc,
      fun e he => bucket_claim_bootstrapErr env st name cli e hcc he,
      bucket_claim_post_cc env st name cli hcc,
      takeClusterClient_none _ (bucket_claim_post_cc env st name cli hcc)⟩
  · intro env st name name2 cli hcc hid hname hget
    have hcc2 : (Cluster.bucket env st name).1.clusterClient = none :=
      bucket_claim_post_cc env st name cli hcc
    have hget2 : assocGet (Cluster.bucket env st name).1.connections (bucketHash name2)
        = none := by
      rw [bucket_claim_conn_other env st name cli (bucketHash name2) hcc hname]
      exact hget
    rw [bucket_fresh_id env _ name2 hcc2 hget2,
      bucket_claim_nextId env st name cli hcc]
    exact fun hh => hid hh.symm

/-- Witness for C4: a fresh cluster with floating client id 7 hands that
client to the first bucket, records the selection failure on it, refuses a
second take, gives bucket b2 a distinct client, and registers the result
under the bucket hash. -/
theorem c4_bucket_claims_floating_once_witness :
    (Cluster.bucket c4env c4exState "b1").2.id = c4cc.id
    ∧ (Cluster.bucket c4env c4exState "b1").2.bootstrapErr
        = some (GocbError.strError "select bucket failed")
    ∧ (Cluster.bucket c4env c4exState "b1").1.clusterClient = none
    ∧ Cluster.takeClusterClient (Cluster.bucket c4env c4exState "b1").1
        = (none, (Cluster.bucket c4env c4exState "b1").1)
    ∧ (Cluster.bucket c4env (Cluster.bucket c4env c4exState "b1").1 "b2").2.id ≠ c4cc.id
    ∧ assocGet (Cluster.bucket c4env c4exState "b1").1.connections (bucketHash "b1")
        = some (Cluster.bucket c4env c4exState "b1").2 :=
  ⟨(c4_bucket_claims_floating_once.1 c4env c4exState "b1" c4cc rfl).1,
   (c4_bucket_claims_floating_once.1 c4env c4exState "b1" c4cc rfl).2.1 _ rfl,
   (c4_bucket_claims_floating_once.1 c4env c4exState "b1" c4cc rfl).2.2.1,
   (c4_bucket_claims_floating_once.1 c4env c4exState "b1" c4cc rfl).2.2.2,
   c4_bucket_claims_floating_once.2.1 c4env c4exState "b1" "b2" c4cc rfl (by decide)
     (by decide) rfl,
   c4_bucket_claims_floating_once.2.2 c4env c4exState "b1"⟩

/-- C5: an unclaimed floating client is used for cluster-scoped routing
exactly when it supports cluster-level operations (else the call fails with
the capability error regardless of the registry); once claimed, the first
connected registry entry is returned; with no connected entry the call fails
with the first bootstrap error observed, or the not-connected error when no
bootstrap error exists or the registry is empty. -/
theorem c5_cluster_or_random_routing :
    (∀ (st : ClusterState) (cli : Client), st.clusterClient = some cli →
        cli.gcccp = true → Cluster.clusterOrRandomClient st = Except.ok cli)
    ∧ (∀ (st : ClusterState) (cli : Client), st.clusterClient = some cli →
        cli.gcccp = false →
        Cluster.clusterOrRandomClient st
          = Except.error (GocbError.strError
              "cluster-level operations not supported due to cluster version"))
    ∧ (∀ (st : ClusterState) (c : Client), st.clusterClient = none →
        firstConnected st.connections = some c →
        Cluster.clusterOrRandomClient st = Except.ok c)
    ∧ (∀ (st : ClusterState) (e : GocbError), st.clusterClient = none →
        firstConnected st.connections = none →
        firstBootstrapError st.connections = some e →
        Cluster.clusterOrRandomClient st = Except.error e)
    ∧ (∀ st : ClusterState, st.clusterClient = none →
        firstConnected st.connections = none →
        firstBootstrapError st.connections = none →
        Cluster.clusterOrRandomClient st
          = Except.error (GocbError.strError "not connected to cluster")) := by
  refine ⟨?_, ?_, ?_, ?_, ?_⟩
  · intro st cli hcc hg
    simp [Cluster.clusterOrRandomClient, hcc, hg]
  · intro st cli hcc hg
    simp [Cluster.clusterOrRandomClient, hcc, hg]
  · intro st c hcc hfc
    have hne : st.connections.isEmpty = false := by
      cases hconn : st.connections
      · rw [hconn] at hfc
        exact Option.noConfusion hfc
      · rfl
    have h1 : (scanClients none st.connections).1 = some c := by
      rw [scanClients_fst]
      exact hfc
    simp only [Cluster.clusterOrRandomClient, Cluster.randomClient, hcc, hne,
      Bool.false_eq_true, if_false]
    rcases hsc : scanClients none st.connections with ⟨oc, oe⟩
    rw [hsc] at h1
    simp only at h1
    subst h1
    rfl
  · intro st e hcc hfc hfb
    have hne : st.connections.isEmpty = false := by
      cases hconn : st.connections
      · rw [hconn] at hfb
        exact Option.noConfusion hfb
      · rfl
    have h1 : (scanClients none st.connections).1 = none := by
      rw [scanClients_fst]
      exact hfc
    have h2 : (scanClients none st.connections).2 = some e := by
      rw [scanClients_snd _ _ hfc]
      exact hfb
    simp only [Cluster.clusterOrRandomClient, Cluster.randomClient, hcc, hne,
      Bool.false_eq_true, if_false]
    rcases hsc : scanClients none st.connections with ⟨oc, oe⟩
    rw [hsc] at h1 h2
    simp only at h1 h2
    subst h1
    subst h2
    rfl
  · intro st hcc hfc hfb
    cases hconn : st.connections with
    | nil =>
        simp [Cluster.clusterOrRandomClient, Cluster.randomClient, hcc, hconn]
    | cons p t =>
        have hne : st.connections.isEmpty = false := by rw [hconn]; rfl
        have h1 : (scanClients none st.connections).1 = none := by
          rw [scanClients_fst]
          exact hfc
        have h2 : (scanClients none st.connections).2 = none := by
          rw [scanClients_snd _ _ hfc]
          exact hfb
        simp only [Cluster.clusterOrRandomClient, Cluster.randomClient, hcc, hne,
          Bool.false_eq_true, if_false]
        rcases hsc : scanClients none st.connections with ⟨oc, oe⟩
        rw [hsc] at h1 h2
        simp only at h1 h2
        subst h1
        subst h2
        rfl

/-- Witness for C5 across the five routing situations. -/
theorem c5_cluster_or_random_routing_witness :
    Cluster.clusterOrRandomClient c5stA = Except.ok c5ccGood
    ∧ Cluster.clusterOrRandomClient c5stB
        = Except.error (GocbError.strError
            "cluster-level operations not supported due to cluster version")
    ∧ Cluster.clusterOrRandomClient c5stC = Except.ok c5conn
    ∧ Cluster.clusterOrRandomClient c5stD
        = Except.error (GocbError.strError "bootstrap failed")
    ∧ Cluster.clusterOrRandomClient c5stE
        = Except.error (GocbError.strError "not connected to cluster") :=
  ⟨c5_cluster_or_random_routing.1 c5stA c5ccGood rfl rfl,
   c5_cluster_or_random_routing.2.1 c5stB c5ccBad rfl rfl,
   c5_cluster_or_random_routing.2.2.1 c5stC c5conn rfl rfl,
   c5_cluster_or_random_routing.2.2.2.1 c5stD (GocbError.strError "bootstrap failed")
     rfl rfl rfl,
   c5_cluster_or_random_routing.2.2.2.2 c5stE rfl rfl rfl⟩

end Gocb
